import Mathlib

/-!
Shallow embedding of `src/grpclib/server.py`: the per-RPC `Stream` wrapper, the
`request_handler` dispatch function, the per-connection `Handler`, and the
`Server` lifecycle.  Transport output is modelled as a trace of frames; coroutine
suspension is irrelevant to the verified properties, so every operation is a pure
function from the pre-state to (emitted frames, post-state, raised exception).
-/

namespace Grpclib

/-- Python exceptions that the embedded code can raise.  `appError` stands for an
arbitrary exception raised by a registered RPC function. -/
inductive Err where
  | assertionError
  | keyError
  | runtimeError (msg : String)
  | appError
deriving DecidableEq

/-- A message value; `type` is its runtime type tag, used for the
`isinstance(message, self._send_type)` check. -/
structure Msg where
  type : String
  payload : Nat
deriving DecidableEq

/-- A frame emitted on one transport stream: a header block (with or without the
end-of-stream flag) via `_stream.send_headers`, or one data message via `send`. -/
inductive Frame where
  | headers (hs : List (String × String)) (endStream : Bool)
  | data (msg : Msg)
deriving DecidableEq

/-- Lookup in a Python dict modelled as an association list in which a later
binding shadows an earlier one (`dict(pairs)` and `d.update(e)` both let the
later binding win, so `d.update(e)` is modelled extensionally as `d ++ e`). -/
def dictGet {β : Type} (d : List (String × β)) (k : String) : Option β :=
  match d with
  | [] => none
  | (k', v) :: rest =>
    match dictGet rest k with
    | some w => some w
    | none => if k = k' then some v else none

/-- `mapping.update(other)` on the dict model: append, since `dictGet` lets later
bindings shadow earlier ones. -/
def dictUpdate {β : Type} (d e : List (String × β)) : List (String × β) := d ++ e

/-- Modelled from the spec: `CONTENT_TYPE` is imported from `grpclib/stream.py`,
which is not part of the sources; the spec only says it is "an accepted encoding
identifying the RPC message encoding", so a fixed representative string is used.
No claim depends on its exact value. -/
def CONTENT_TYPE : String := "application/grpc"

/-- Modelled from the spec: `CONTENT_TYPES` is imported from `grpclib/stream.py`,
which is not part of the sources; the spec says the inbound content-type "must be
one of the accepted encodings for this RPC system".  Modelled as the collection
containing `CONTENT_TYPE`; no claim depends on the exact membership. -/
def CONTENT_TYPES : List String := [CONTENT_TYPE]

/-- The immutable part of a `Stream`: the resolved request/reply types and the
stored initial-header and trailer sets (`self._recv_type`, `self._send_type`,
`self._headers`, `self._trailers`). -/
structure Stream where
  recv_type : String
  send_type : String
  headers : List (String × String)
  trailers : List (String × String)
deriving DecidableEq

/-- The mutable flags of a `Stream`: `_headers_sent` and `_ended`, both
initialized `False` at class level. -/
structure StreamState where
  headers_sent : Bool
  ended : Bool
deriving DecidableEq

/-- The fresh state of a newly constructed `Stream`. -/
def freshState : StreamState := ⟨false, false⟩

/-- The header frames emitted by the `if not self._headers_sent` block at the top
of `Stream.send`. -/
def headerBlock (s : Stream) (st : StreamState) : List Frame :=
  if st.headers_sent then [] else [Frame.headers s.headers false]

/-- `Stream.end`: resolve `trailers` to the stored default when `None`, run
`assert not self._ended`, then `send_headers(trailers, end_stream=True)`.
Note that the source never sets `self._ended` to `True`, so the returned
state is the input state unchanged. -/
def Stream.end_ (s : Stream) (st : StreamState) (trailers : Option (List (String × String))) :
    List Frame × StreamState × Option Err :=
  if st.ended then ([], st, some Err.assertionError)
  else ([Frame.headers (trailers.getD s.trailers) true], st, none)

/-- `Stream.maybe_end`: `if not self._ended: await self.end(trailers=trailers)`. -/
def Stream.maybe_end (s : Stream) (st : StreamState) (trailers : Option (List (String × String))) :
    List Frame × StreamState × Option Err :=
  if st.ended then ([], st, none) else s.end_ st trailers

/-- `Stream.send(message, end=False)`: emit the stored initial headers if not yet
sent and set `_headers_sent` (after the block the flag is `True` in every case),
then `assert isinstance(message, self._send_type)`, then emit the message frame,
then `await self.end()` when `end` is true. -/
def Stream.send (s : Stream) (st : StreamState) (message : Msg) (endArg : Bool) :
    List Frame × StreamState × Option Err :=
  if message.type = s.send_type then
    if endArg then
      (headerBlock s st ++ [Frame.data message] ++ (s.end_ ⟨true, st.ended⟩ none).1,
       (s.end_ ⟨true, st.ended⟩ none).2.1, (s.end_ ⟨true, st.ended⟩ none).2.2)
    else (headerBlock s st ++ [Frame.data message], ⟨true, st.ended⟩, none)
  else (headerBlock s st, ⟨true, st.ended⟩, some Err.assertionError)

/-- One interaction of a registered RPC function with its `Stream`. -/
inductive Action where
  | send (message : Msg) (endArg : Bool)
  | end_ (trailers : Option (List (String × String)))
  | maybeEnd (trailers : Option (List (String × String)))
deriving DecidableEq

/-- A registered RPC function, modelled by the sequence of `Stream` interactions
it performs and whether it finally raises an exception of its own (after all its
stream interactions succeeded). -/
structure HandlerProg where
  actions : List Action
  raises : Bool
deriving DecidableEq

/-- Run one `Action` against the stream. -/
def runAction (s : Stream) (st : StreamState) : Action → List Frame × StreamState × Option Err
  | .send m e => s.send st m e
  | .end_ tr => s.end_ st tr
  | .maybeEnd tr => s.maybe_end st tr

/-- Run a sequence of `Action`s; an exception aborts the rest of the sequence
(the registered functions modelled here do not catch stream errors). -/
def runActions (s : Stream) (st : StreamState) : List Action → List Frame × StreamState × Option Err
  | [] => ([], st, none)
  | a :: rest =>
    match runAction s st a with
    | (fs, st1, some e) => (fs, st1, some e)
    | (fs, st1, none) =>
      match runActions s st1 rest with
      | (fs2, st2, e2) => (fs ++ fs2, st2, e2)

/-- Run a registered RPC function to completion: its stream interactions, then
its own final raise if any. -/
def runFunc (s : Stream) (st : StreamState) (p : HandlerProg) :
    List Frame × StreamState × Option Err :=
  match runActions s st p.actions with
  | (fs, st1, some e) => (fs, st1, some e)
  | (fs, st1, none) => (fs, st1, if p.raises then some Err.appError else none)

/-- A method descriptor from the Mapping: `request_type`, `reply_type` and the
registered function `func`. -/
structure Method where
  request_type : String
  reply_type : String
  func : HandlerProg
deriving DecidableEq

/-- The `Stream` constructed by `request_handler` for a resolved method:
`Stream(_stream, method.request_type, method.reply_type,
[(':status', '200'), ('content-type', CONTENT_TYPE)], [('grpc-status', '0')])`. -/
def mkStream (m : Method) : Stream :=
  ⟨m.request_type, m.reply_type,
   [(":status", "200"), ("content-type", CONTENT_TYPE)],
   [("grpc-status", "0")]⟩

/-- The observable outcome of one `request_handler` run: the frames emitted on
the transport stream, whether `log.exception('Server error')` ran, and the
exception escaping `request_handler` if any. -/
structure RHResult where
  frames : List Frame
  logged : Bool
  err : Option Err
deriving DecidableEq

/-- The `try/except/else` tail of `request_handler`, after validation resolved a
method: construct the `Stream`, await `method.func(stream)`; on an exception log
and `maybe_end([('grpc-status', '2')])`, otherwise `maybe_end()`. -/
def dispatch (m : Method) : RHResult :=
  match runFunc (mkStream m) freshState m.func with
  | (fs, st1, some _) =>
    ⟨fs ++ ((mkStream m).maybe_end st1 (some [("grpc-status", "2")])).1, true,
     ((mkStream m).maybe_end st1 (some [("grpc-status", "2")])).2.2⟩
  | (fs, st1, none) =>
    ⟨fs ++ ((mkStream m).maybe_end st1 none).1, false,
     ((mkStream m).maybe_end st1 none).2.2⟩

/-- `request_handler(mapping, _stream, headers)`: dict the headers, extract
`:method`, `:path`, `content-type` (a missing key raises `KeyError`), resolve
`mapping.get(path)`, run the three `assert`s in source order, then `dispatch`. -/
def request_handler (mapping : List (String × Method))
    (headers : List (String × String)) : RHResult :=
  match dictGet headers ":method", dictGet headers ":path",
        dictGet headers "content-type" with
  | some h2_method, some h2_path, some h2_content_type =>
    if h2_method = "POST" then
      match dictGet mapping h2_path with
      | some m =>
        if h2_content_type ∈ CONTENT_TYPES then dispatch m
        else ⟨[], false, some Err.assertionError⟩
      | none => ⟨[], false, some Err.assertionError⟩
    else ⟨[], false, some Err.assertionError⟩
  | _, _, _ => ⟨[], false, some Err.keyError⟩

/-- Frames that terminate the stream: header blocks sent with `end_stream=True`
(trailer frames). -/
def isTrailer : Frame → Bool
  | .headers _ true => true
  | _ => false

/-- Number of terminal trailer frames in a trace. -/
def countTrailers (fs : List Frame) : Nat := (fs.filter isTrailer).length

/-- The state of a `Handler` (per-connection dispatcher): the Task Table
`self.tasks` (transport-stream identity to task identity), the set of tasks whose
cancellation has been requested (`task.cancel()` was called on them), and the
Cancelled Set `self._cancelled`.  Task objects are identified by `Nat` ids. -/
structure HState where
  tasks : List (Nat × Nat)
  cancelRequested : List Nat
  cancelled : List Nat
deriving DecidableEq

/-- `self.tasks[stream] = task` on the association-list Task Table: replace the
binding if present, else append. -/
def taskSet (d : List (Nat × Nat)) (k v : Nat) : List (Nat × Nat) :=
  if d.any (fun p => p.1 = k) then d.map (fun p => if p.1 = k then (k, v) else p)
  else d ++ [(k, v)]

/-- `self.tasks[stream]` lookup on the Task Table. -/
def taskGet (d : List (Nat × Nat)) (k : Nat) : Option Nat :=
  (d.find? (fun p => p.1 = k)).map (·.2)

/-- `Handler.accept(stream, headers)`: schedule a task (id supplied by the
scheduler model) and record it in the Task Table. -/
def Handler.accept (h : HState) (streamId taskId : Nat) : HState :=
  { h with tasks := taskSet h.tasks streamId taskId }

/-- `Handler.cancel(stream)`: `task = self.tasks.pop(stream)` (KeyError when
absent), `task.cancel()`, `self._cancelled.add(task)`. -/
def Handler.cancel (h : HState) (streamId : Nat) : Except Err HState :=
  match taskGet h.tasks streamId with
  | none => .error Err.keyError
  | some taskId =>
    .ok { tasks := h.tasks.filter (fun p => p.1 ≠ streamId),
          cancelRequested := h.cancelRequested ++ [taskId],
          cancelled := h.cancelled ++ [taskId] }

/-- `Handler.close()`: `for task in self.tasks.values(): task.cancel()` then
`self._cancelled.update(self.tasks.values())`; the Task Table is not cleared. -/
def Handler.close (h : HState) : HState :=
  { h with cancelRequested := h.cancelRequested ++ h.tasks.map (·.2),
           cancelled := h.cancelled ++ h.tasks.map (·.2) }

/-- The state of a `Server`: the merged mapping, whether `self._tcp_server` is
set (i.e. `start` has completed), and the Handler Set. -/
structure Server where
  mapping : List (String × Method)
  tcp_server : Bool
  handlers : List HState
deriving DecidableEq

/-- `Server.__init__(handlers, loop)`: merge every handler group's mapping via
`mapping.update(handler.__mapping__())`; `_tcp_server = None`; empty Handler
Set. -/
def Server.init (handlerGroups : List (List (String × Method))) : Server :=
  ⟨handlerGroups.foldl dictUpdate [], false, []⟩

/-- `Server.start(...)`: raise `RuntimeError` when `self._tcp_server is not
None`, otherwise create the listening socket. -/
def Server.start (sv : Server) : Except Err Server :=
  if sv.tcp_server then .error (Err.runtimeError "Server is already started")
  else .ok { sv with tcp_server := true }

/-- `Server.close()`: raise `RuntimeError` when never started, otherwise close
the listening socket and call `close()` on every tracked Handler. -/
def Server.close (sv : Server) : Except Err Server :=
  if sv.tcp_server then .ok { sv with handlers := sv.handlers.map Handler.close }
  else .error (Err.runtimeError "Server is not started")

/-- `Server.wait_closed()`: raise `RuntimeError` when never started, otherwise
wait (no state change observable in this model). -/
def Server.wait_closed (sv : Server) : Except Err Unit :=
  if sv.tcp_server then .ok () else .error (Err.runtimeError "Server is not started")

/-- A registered function that calls `stream.end()` once and returns normally. -/
def exFuncEnd : HandlerProg := ⟨[Action.end_ none], false⟩

/-- Example method whose function explicitly ends the stream. -/
def exMethodEnd : Method := ⟨"Req", "Rep", exFuncEnd⟩

/-- Example method whose function raises without touching the stream. -/
def exMethodRaise : Method := ⟨"Req", "Rep", ⟨[], true⟩⟩

/-- Example mapping with one registered path. -/
def exMapping : List (String × Method) := [("/pkg.Service/Method", exMethodEnd)]

/-- Well-formed inbound headers for the example mapping. -/
def exHeaders : List (String × String) :=
  [(":method", "POST"), (":path", "/pkg.Service/Method"), ("content-type", CONTENT_TYPE)]

/-- Example stream as constructed by `request_handler` for `exMethodEnd`. -/
def exStream : Stream := mkStream exMethodEnd

/-- A registered function consisting of plain `send(msg)` calls only. -/
def sendsOf (msgs : List Msg) : List Action := msgs.map (fun m => Action.send m false)

/-- Example Handler state with two tracked tasks. -/
def exHandler : HState := ⟨[(1, 10), (2, 20)], [], []⟩

/- ------------------------------------------------------------------ -/
/- Helper lemmas                                                       -/
/- ------------------------------------------------------------------ -/

theorem end_state (s : Stream) (st : StreamState) (tr : Option (List (String × String))) :
    (s.end_ st tr).2.1 = st := by
  unfold Stream.end_; split <;> rfl

theorem maybe_end_state (s : Stream) (st : StreamState) (tr : Option (List (String × String))) :
    (s.maybe_end st tr).2.1 = st := by
  unfold Stream.maybe_end; split
  · rfl
  · exact end_state s st tr

theorem maybe_end_err_none (s : Stream) (st : StreamState)
    (tr : Option (List (String × String))) :
    (s.maybe_end st tr).2.2 = none := by
  unfold Stream.maybe_end Stream.end_
  by_cases h : st.ended <;> simp [h]

theorem maybe_end_not_ended (s : Stream) (st : StreamState)
    (tr : Option (List (String × String))) (h : st.ended = false) :
    s.maybe_end st tr = ([Frame.headers (tr.getD s.trailers) true], st, none) := by
  unfold Stream.maybe_end Stream.end_
  simp [h]

theorem send_state (s : Stream) (st : StreamState) (m : Msg) (e : Bool) :
    (s.send st m e).2.1 = ⟨true, st.ended⟩ := by
  unfold Stream.send
  split
  · split
    · exact end_state s ⟨true, st.ended⟩ none
    · rfl
  · rfl

theorem runAction_ended (s : Stream) (st : StreamState) (a : Action) :
    ((runAction s st a).2.1).ended = st.ended := by
  cases a with
  | send m e => rw [runAction, send_state]
  | end_ tr => rw [runAction, end_state]
  | maybeEnd tr => rw [runAction, maybe_end_state]

theorem runActions_ended (s : Stream) (acts : List Action) (st : StreamState) :
    ((runActions s st acts).2.1).ended = st.ended := by
  induction acts generalizing st with
  | nil => rfl
  | cons a rest ih =>
    rw [runActions]
    rcases hra : runAction s st a with ⟨fs, st1, e⟩
    have h1 : st1.ended = st.ended := by
      have := runAction_ended s st a; rwa [hra] at this
    cases e with
    | some err => simpa using h1
    | none =>
      dsimp only
      rcases hrs : runActions s st1 rest with ⟨fs2, st2, e2⟩
      have h2 : st2.ended = st1.ended := by
        have := ih st1; rwa [hrs] at this
      simpa using h2.trans h1

theorem runFunc_ended (s : Stream) (st : StreamState) (p : HandlerProg) :
    ((runFunc s st p).2.1).ended = st.ended := by
  unfold runFunc
  rcases hrs : runActions s st p.actions with ⟨fs, st1, e⟩
  have h1 : st1.ended = st.ended := by
    have := runActions_ended s p.actions st; rwa [hrs] at this
  cases e <;> simpa using h1

theorem dispatch_err_none (m : Method) : (dispatch m).err = none := by
  unfold dispatch
  rcases h : runFunc (mkStream m) freshState m.func with ⟨fs, st1, e⟩
  cases e <;> simp [maybe_end_err_none]

theorem request_handler_valid (mapping : List (String × Method))
    (headers : List (String × String)) (p ct : String) (m : Method)
    (h1 : dictGet headers ":method" = some "POST")
    (h2 : dictGet headers ":path" = some p)
    (h3 : dictGet headers "content-type" = some ct)
    (h4 : dictGet mapping p = some m) (h5 : ct ∈ CONTENT_TYPES) :
    request_handler mapping headers = dispatch m := by
  unfold request_handler
  rw [h1, h2, h3]
  dsimp only
  rw [if_pos rfl, h4]
  dsimp only
  rw [if_pos h5]

theorem send_after_headers (s : Stream) (en : Bool) (m : Msg)
    (hm : m.type = s.send_type) :
    s.send ⟨true, en⟩ m false = ([Frame.data m], ⟨true, en⟩, none) := by
  unfold Stream.send headerBlock
  simp [hm]

theorem send_first (s : Stream) (m : Msg) (hm : m.type = s.send_type) :
    s.send freshState m false =
      ([Frame.headers s.headers false, Frame.data m], ⟨true, false⟩, none) := by
  unfold Stream.send headerBlock freshState
  simp [hm]

theorem runActions_sends_after_headers (s : Stream) (en : Bool) :
    ∀ msgs : List Msg, (∀ x ∈ msgs, x.type = s.send_type) →
      runActions s ⟨true, en⟩ (sendsOf msgs) = (msgs.map Frame.data, ⟨true, en⟩, none) := by
  intro msgs
  induction msgs with
  | nil => intro _; rfl
  | cons m rest ih =>
    intro ht
    have hm : m.type = s.send_type := ht m (by simp)
    have hrest : ∀ x ∈ rest, x.type = s.send_type := fun x hx => ht x (by simp [hx])
    simp only [sendsOf, List.map_cons, runActions, runAction]
    rw [send_after_headers s en m hm]
    dsimp only
    have hr := ih hrest
    simp only [sendsOf] at hr
    rw [hr]
    simp

theorem dictGet_append {β : Type} (d e : List (String × β)) (k : String) :
    dictGet (d ++ e) k =
      match dictGet e k with
      | some v => some v
      | none => dictGet d k := by
  induction d with
  | nil =>
    rw [List.nil_append]
    cases h : dictGet e k <;> simp [h, dictGet]
  | cons p d ih =>
    rcases p with ⟨k', v⟩
    rw [List.cons_append, dictGet, ih, dictGet]
    cases dictGet e k <;> cases dictGet d k <;> rfl

theorem server_init_append (gs : List (List (String × Method)))
    (g : List (String × Method)) :
    (Server.init (gs ++ [g])).mapping = (Server.init gs).mapping ++ g := by
  show List.foldl dictUpdate [] (gs ++ [g]) = List.foldl dictUpdate [] gs ++ g
  rw [List.foldl_append]
  rfl

/- ------------------------------------------------------------------ -/
/- The claims                                                          -/
/- ------------------------------------------------------------------ -/

/-- Claim C1, evidence that the code violates it: the example handler function
calls `stream.end()` once and returns normally, yet `request_handler` completes
without exception while emitting TWO terminal trailer frames on the transport
stream — `Stream.end` never sets `_ended`, so the cleanup `maybe_end` ends the
stream a second time. -/
theorem C1_two_trailers_on_explicit_end :
    countTrailers (request_handler exMapping exHeaders).frames = 2 ∧
    (request_handler exMapping exHeaders).err = none := by decide

/-- Claim C2, evidence that the code violates it: a first `end()` on a fresh
stream completes successfully (raises nothing), and the subsequent `maybe_end()`
nonetheless performs wire activity — it sends a second trailer frame — because
`_ended` is still `false`. -/
theorem C2_maybe_end_after_end_sends :
    (exStream.end_ freshState none).2.2 = none ∧
    (exStream.maybe_end (exStream.end_ freshState none).2.1 none).1 =
      [Frame.headers [("grpc-status", "0")] true] := by decide

/-- Claim C3, evidence that the code violates it: after a first successful
`end()`, a second `end()` is NOT rejected — `assert not self._ended` still
passes because `_ended` was never set — and it silently emits another trailer
frame. -/
theorem C3_second_end_not_rejected :
    (exStream.end_ (exStream.end_ freshState none).2.1 none).2.2 = none ∧
    (exStream.end_ (exStream.end_ freshState none).2.1 none).1 =
      [Frame.headers [("grpc-status", "0")] true] := by decide

/-- Claim C4: whenever validation passes and the registered method function
raises an unhandled exception, `request_handler` logs the failure, emits the
failure trailer `[('grpc-status', '2')]` as its final frame via `maybe_end`,
and lets no exception escape. -/
theorem C4_failure_logged_and_trailed (mapping : List (String × Method))
    (headers : List (String × String)) (p ct : String) (m : Method)
    (h1 : dictGet headers ":method" = some "POST")
    (h2 : dictGet headers ":path" = some p)
    (h3 : dictGet headers "content-type" = some ct)
    (h4 : dictGet mapping p = some m) (h5 : ct ∈ CONTENT_TYPES)
    (h6 : (runFunc (mkStream m) freshState m.func).2.2 ≠ none) :
    (request_handler mapping headers).logged = true ∧
    (request_handler mapping headers).err = none ∧
    (request_handler mapping headers).frames =
      (runFunc (mkStream m) freshState m.func).1 ++
        [Frame.headers [("grpc-status", "2")] true] := by
  rw [request_handler_valid mapping headers p ct m h1 h2 h3 h4 h5]
  unfold dispatch
  rcases hrf : runFunc (mkStream m) freshState m.func with ⟨fs, st1, e⟩
  rw [hrf] at h6
  have hend : st1.ended = false := by
    have := runFunc_ended (mkStream m) freshState m.func
    rw [hrf] at this; exact this
  cases e with
  | none => simp at h6
  | some err =>
    dsimp only
    rw [maybe_end_not_ended _ _ _ hend]
    simp

/-- Witness for C4: a concrete raising handler behind a valid request. -/
theorem C4_witness :
    (request_handler [("/p", exMethodRaise)]
        [(":method", "POST"), (":path", "/p"), ("content-type", CONTENT_TYPE)]).logged
      = true ∧
    (request_handler [("/p", exMethodRaise)]
        [(":method", "POST"), (":path", "/p"), ("content-type", CONTENT_TYPE)]).err
      = none ∧
    (request_handler [("/p", exMethodRaise)]
        [(":method", "POST"), (":path", "/p"), ("content-type", CONTENT_TYPE)]).frames
      = (runFunc (mkStream exMethodRaise) freshState exMethodRaise.func).1 ++
          [Frame.headers [("grpc-status", "2")] true] :=
  C4_failure_logged_and_trailed [("/p", exMethodRaise)]
    [(":method", "POST"), (":path", "/p"), ("content-type", CONTENT_TYPE)]
    "/p" CONTENT_TYPE exMethodRaise
    (by decide) (by decide) (by decide) (by decide) (by decide) (by decide)

/-- Claim C5: starting from a fresh stream, a nonempty sequence of `send` calls
whose messages all match the resolved send type emits the stored initial headers
`[(':status', '200'), ('content-type', CONTENT_TYPE)]` exactly once, as the very
first frame, before the first message frame, and every later frame is a data
frame (no later `send` emits headers again). -/
theorem C5_headers_once_before_first_message (m : Method) (msg0 : Msg)
    (msgs : List Msg) (h0 : msg0.type = (mkStream m).send_type)
    (ht : ∀ x ∈ msgs, x.type = (mkStream m).send_type) :
    runActions (mkStream m) freshState (sendsOf (msg0 :: msgs)) =
      (Frame.headers [(":status", "200"), ("content-type", CONTENT_TYPE)] false
         :: Frame.data msg0 :: msgs.map Frame.data,
       ⟨true, false⟩, none) := by
  simp only [sendsOf, List.map_cons, runActions, runAction]
  rw [send_first (mkStream m) msg0 h0]
  dsimp only
  have hr := runActions_sends_after_headers (mkStream m) false msgs ht
  simp only [sendsOf] at hr
  rw [hr]
  simp [mkStream]

/-- Witness for C5: two well-typed sends on the example stream. -/
theorem C5_witness :
    runActions (mkStream exMethodEnd) freshState
        (sendsOf [⟨"Rep", 0⟩, ⟨"Rep", 1⟩]) =
      (Frame.headers [(":status", "200"), ("content-type", CONTENT_TYPE)] false
         :: Frame.data ⟨"Rep", 0⟩ :: [Msg.mk "Rep" 1].map Frame.data,
       ⟨true, false⟩, none) :=
  C5_headers_once_before_first_message exMethodEnd ⟨"Rep", 0⟩ [⟨"Rep", 1⟩]
    (by decide) (by decide)

/-- Claim C6: with the three request headers present, `request_handler` ends in
an assertion failure exactly when the method is not `POST`, or the path is
unmapped, or the content type is not accepted; and when all three validations
pass it proceeds to construct the `Stream` and run the method function (its
outcome is exactly `dispatch`). -/
theorem C6_validation_iff (mapping : List (String × Method))
    (headers : List (String × String)) (mth p ct : String)
    (h1 : dictGet headers ":method" = some mth)
    (h2 : dictGet headers ":path" = some p)
    (h3 : dictGet headers "content-type" = some ct) :
    ((request_handler mapping headers).err = some Err.assertionError
      ↔ mth ≠ "POST" ∨ dictGet mapping p = none ∨ ct ∉ CONTENT_TYPES) ∧
    ∀ m : Method, mth = "POST" → dictGet mapping p = some m → ct ∈ CONTENT_TYPES →
      request_handler mapping headers = dispatch m := by
  constructor
  · by_cases hm : mth = "POST"
    · subst hm
      cases hmap : dictGet mapping p with
      | none =>
        unfold request_handler
        rw [h1, h2, h3]
        dsimp only
        rw [if_pos rfl, hmap]
        simp
      | some m =>
        by_cases hct : ct ∈ CONTENT_TYPES
        · rw [request_handler_valid mapping headers p ct m h1 h2 h3 hmap hct,
            dispatch_err_none]
          simp [hmap, hct]
        · unfold request_handler
          rw [h1, h2, h3]
          dsimp only
          rw [if_pos rfl, hmap]
          dsimp only
          rw [if_neg hct]
          simp [hmap, hct]
    · unfold request_handler
      rw [h1, h2, h3]
      dsimp only
      rw [if_neg hm]
      simp [hm]
  · intro m hm hmap hct
    subst hm
    exact request_handler_valid mapping headers p ct m h1 h2 h3 hmap hct

/-- Witness for C6: a request whose method is `GET` is rejected with an
assertion failure. -/
theorem C6_witness :
    (request_handler exMapping
        [(":method", "GET"), (":path", "/pkg.Service/Method"),
         ("content-type", CONTENT_TYPE)]).err = some Err.assertionError :=
  (C6_validation_iff exMapping
      [(":method", "GET"), (":path", "/pkg.Service/Method"),
       ("content-type", CONTENT_TYPE)]
      "GET" "/pkg.Service/Method" CONTENT_TYPE
      (by decide) (by decide) (by decide)).1.mpr (Or.inl (by decide))

/-- Claim C7: `start` on a started Server raises the invalid-state
`RuntimeError`; `close` and `wait_closed` on a never-started Server raise the
invalid-state `RuntimeError`; `start` on a fresh Server and `close`/`wait_closed`
on a started Server succeed. -/
theorem C7_lifecycle_errors (sv : Server) :
    (sv.tcp_server = true →
      sv.start = Except.error (Err.runtimeError "Server is already started") ∧
      (∃ sv2, sv.close = Except.ok sv2) ∧ sv.wait_closed = Except.ok ()) ∧
    (sv.tcp_server = false →
      (∃ sv2, sv.start = Except.ok sv2) ∧
      sv.close = Except.error (Err.runtimeError "Server is not started") ∧
      sv.wait_closed = Except.error (Err.runtimeError "Server is not started")) := by
  constructor
  · intro h
    simp [Server.start, Server.close, Server.wait_closed, h]
  · intro h
    simp [Server.start, Server.close, Server.wait_closed, h]

/-- Witness for C7 at concrete started and never-started Servers. -/
theorem C7_witness :
    (Server.start ⟨[], true, []⟩ =
      Except.error (Err.runtimeError "Server is already started")) ∧
    (Server.close ⟨[], false, []⟩ =
      Except.error (Err.runtimeError "Server is not started")) ∧
    (Server.wait_closed ⟨[], false, []⟩ =
      Except.error (Err.runtimeError "Server is not started")) :=
  ⟨((C7_lifecycle_errors ⟨[], true, []⟩).1 rfl).1,
   ((C7_lifecycle_errors ⟨[], false, []⟩).2 rfl).2.1,
   ((C7_lifecycle_errors ⟨[], false, []⟩).2 rfl).2.2⟩

/-- Claim C8: `Handler.close` requests cancellation of every task in the Task
Table and adds every one of them to the Cancelled Set, while the Task Table
itself is left unchanged. -/
theorem C8_close_cancels_all (h : HState) :
    (Handler.close h).tasks = h.tasks ∧
    ∀ e ∈ h.tasks, e.2 ∈ (Handler.close h).cancelRequested ∧
      e.2 ∈ (Handler.close h).cancelled := by
  refine ⟨rfl, ?_⟩
  intro e he
  constructor
  · exact List.mem_append_right _ (List.mem_map_of_mem _ he)
  · exact List.mem_append_right _ (List.mem_map_of_mem _ he)

/-- Witness for C8 on a Handler with two tracked tasks. -/
theorem C8_witness :
    (Handler.close exHandler).tasks = exHandler.tasks ∧
    (10 : Nat) ∈ (Handler.close exHandler).cancelRequested ∧
    (10 : Nat) ∈ (Handler.close exHandler).cancelled :=
  ⟨(C8_close_cancels_all exHandler).1,
   ((C8_close_cancels_all exHandler).2 (1, 10) (by decide)).1,
   ((C8_close_cancels_all exHandler).2 (1, 10) (by decide)).2⟩

/-- Claim C9: a first `send` whose message fails the `isinstance` check still
emits the initial response headers and sets the headers-sent flag before the
assertion fails — the wire state has already changed when the error is
raised. -/
theorem C9_wrong_type_after_headers (s : Stream) (st : StreamState) (msg : Msg)
    (e : Bool) (hh : st.headers_sent = false) (ht : msg.type ≠ s.send_type) :
    s.send st msg e =
      ([Frame.headers s.headers false], ⟨true, st.ended⟩,
       some Err.assertionError) := by
  unfold Stream.send headerBlock
  simp [hh, ht]

/-- Witness for C9: a wrongly-typed first send on the example stream. -/
theorem C9_witness :
    exStream.send freshState ⟨"Wrong", 5⟩ false =
      ([Frame.headers exStream.headers false], ⟨true, false⟩,
       some Err.assertionError) :=
  C9_wrong_type_after_headers exStream freshState ⟨"Wrong", 5⟩ false
    (by decide) (by decide)

/-- Claim C10: merging the handler groups at Server construction is silent about
duplicate paths — the merged mapping binds a duplicated path to the descriptor
registered by the last handler group, and construction is total (never raises). -/
theorem C10_last_group_wins (gs : List (List (String × Method)))
    (g : List (String × Method)) (p : String) (d : Method)
    (hd : dictGet g p = some d) :
    dictGet (Server.init (gs ++ [g])).mapping p = some d := by
  rw [server_init_append, dictGet_append, hd]

/-- Witness for C10: two groups registering the same path; the second wins. -/
theorem C10_witness :
    dictGet (Server.init [[("/p", exMethodEnd)], [("/p", exMethodRaise)]]).mapping
        "/p" = some exMethodRaise :=
  C10_last_group_wins [[("/p", exMethodEnd)]] [("/p", exMethodRaise)] "/p"
    exMethodRaise (by decide)

end Grpclib
